import Mathlib

/-!
Verification development for the Smoothie controller core
(src/app/controllers/Smoothie/SmoothieController.js).

The controller's event handlers and command dispatcher are embedded as pure
Lean functions over an explicit controller state.  Each handler returns the
updated state together with the list of observable outputs it produced
(transport writes and connection:read session emissions).

The library collaborators used by the controller (lib/Sender.js, lib/Feeder.js,
lib/Workflow.js, the Smoothie response parser and the lodash throttle) are not
part of the sources; their behaviour is modelled from the specification
(sections 3, 4.2, 4.3, 4.4, 4.5), as flagged in the doc comment of every such
definition.
-/

set_option maxHeartbeats 1000000

namespace SmoothieCtl

/-- Workflow states (lib/Workflow constants WORKFLOW_STATE_IDLE /
WORKFLOW_STATE_RUNNING / WORKFLOW_STATE_PAUSED). -/
inductive WorkflowState where
  | idle
  | running
  | paused
deriving Repr, DecidableEq

/-- Reason payload attached to a workflow pause: either a data reason such as
M0, or an error reason carrying the raw machine error line. -/
inductive PauseReason where
  | data (s : String)
  | err (s : String)
deriving Repr, DecidableEq

/-- Observable outputs of a handler: transport writes (connection.write) and
connection:read emissions to the attached sessions. -/
inductive Output where
  | write (data : String)
  | read (raw : String)
deriving Repr, DecidableEq

def Output.isWrite : Output → Bool
  | .write _ => true
  | .read _ => false

/-- Modelled from the spec: the character-counting streaming-protocol sub-state
of the Sender (spec section 3, SenderState.sp; lib/Sender.js is not under
src/).  `queue` holds the byte lengths of the in-flight lines in send order;
the protocol type is always SP_TYPE_CHAR_COUNTING here (source line 253). -/
structure SPState where
  bufferSize : Int
  dataLength : Int
  queue : List Int
deriving Repr, DecidableEq

/-- Modelled from the spec: the Sender state (spec section 3, SenderState;
lib/Sender.js is not under src/). -/
structure SenderState where
  lines : List String
  sent : Nat
  received : Nat
  hold : Bool
  sp : SPState
deriving Repr, DecidableEq

/-- Modelled from the spec: the Feeder state (spec section 3, FeederState;
lib/Feeder.js is not under src/). -/
structure FeederState where
  queue : List String
  hold : Bool
  pending : Bool
deriving Repr, DecidableEq

/-- actionMask.queryParserState of the controller (source lines 84-87):
`state` waits for a parser-state message, `reply` for its closing ok. -/
structure QueryParserStateMask where
  state : Bool
  reply : Bool
deriving Repr, DecidableEq

/-- actionMask of the controller (source lines 83-93). -/
structure ActionMask where
  queryParserState : QueryParserStateMask
  queryStatusReport : Bool
  replyParserState : Bool
  replyStatusReport : Bool
deriving Repr, DecidableEq

/-- actionTime of the controller (source lines 94-98), in milliseconds. -/
structure ActionTime where
  queryParserState : Int
  queryStatusReport : Int
  senderFinishTime : Int
deriving Repr, DecidableEq

/-- A machine work position, as returned by getWorkPosition. -/
structure Position where
  x : Int
  y : Int
  z : Int
deriving Repr, DecidableEq

/-- Modelled from the spec: the Smoothie machine snapshot (spec section 3,
MachineSnapshot; Smoothie.js is not under src/).  `ovF`/`ovS` are the
top-level snapshot override fields read by the override commands
(source lines 1026 and 1052); `status_ovF`/`status_ovS` model the
state.status.ovF / state.status.ovS slots those commands write
(source lines 1040-1046 and 1066-1072). -/
structure MachineState where
  machineState : String
  wpos : Position
  ovF : Int
  status_ovF : Int
  ovS : Int
  status_ovS : Int
deriving Repr, DecidableEq

/-- Modelled from the spec: Smoothie machine-state names used by the
controller (Idle / Alarm / Hold; constants.js is not under src/). -/
def machineIsIdle (m : MachineState) : Bool :=
  m.machineState == "Idle"

/-- Modelled from the spec: alarm predicate of the Smoothie machine state. -/
def machineIsAlarm (m : MachineState) : Bool :=
  m.machineState == "Alarm"

/-- The whole controller state: connection and ready flags, workflow, masks and
times, throttle bookkeeping for the parser-state query, Sender, Feeder, the
parser-owned machine snapshot (this.controller.state) and the controller's
cached copy of it (this.state). -/
structure CtrlState where
  ready : Bool
  isOpen : Bool
  workflow : WorkflowState
  pauseReason : Option PauseReason
  mask : ActionMask
  time : ActionTime
  qpsThrottleLast : Int
  sender : SenderState
  feeder : FeederState
  controller : MachineState
  cachedState : MachineState
deriving Repr, DecidableEq

/-- Whitespace test matching the characters the JS trim cares about. -/
def isWS (c : Char) : Bool :=
  c == ' ' || c == '\t' || c == '\n' || c == '\r'

/-- Character-level trim: drop leading and trailing whitespace. -/
def trimChars (l : List Char) : List Char :=
  ((l.dropWhile isWS).reverse.dropWhile isWS).reverse

/-- Trim of a string, as the JS String.trim (kernel-computable). -/
def strTrim (s : String) : String :=
  String.mk (trimChars s.data)

/-- Character-level split on a separator character (kernel-computable). -/
def splitOnChar (sep : Char) : List Char → List (List Char)
  | [] => [[]]
  | c :: cs =>
    if c == sep then [] :: splitOnChar sep cs
    else
      match splitOnChar sep cs with
      | [] => [[c]]
      | w :: ws => (c :: w) :: ws

/-- Whether a string starts with the given character (kernel-computable). -/
def startsWithChar (c : Char) (s : String) : Bool :=
  match s.data with
  | [] => false
  | d :: _ => d == c

/-- Comment stripping of the dataFilter (source lines 185 and 258):
drop everything from the first semicolon on and trim. -/
def stripComment (line : String) : String :=
  strTrim (String.mk ((splitOnChar (Char.ofNat 59) line.data).headD []))

/-- Tokenization of a line into G-code words, as produced by the external
gcode parser with flatten (source lines 204-205 and 280-281); modelled as
whitespace splitting, which is all the M0/M1/M6 detection needs. -/
def gcodeWords (line : String) : List String :=
  ((splitOnChar (Char.ofNat 32) line.data).map String.mk).filter (fun w => w ≠ "")

/-- Whether a raw program line triggers a hold or pause in the Sender
dataFilter (source lines 263-298): a literal percent-wait, or a line whose
words contain M0, M1 or M6. -/
def pauseTrigger (rawLine : String) : Bool :=
  let line := stripComment rawLine
  line == "%wait" || (gcodeWords line).contains ("M0")
    || (gcodeWords line).contains ("M1") || (gcodeWords line).contains ("M6")

/-- Modelled from the spec: Sender.rewind (spec section 4.3): zero the
counters, clear hold, empty the in-flight queue, keep the loaded lines. -/
def senderRewind (sd : SenderState) : SenderState :=
  { sd with sent := 0, received := 0, hold := false,
            sp := { sd.sp with dataLength := 0, queue := [] } }

/-- Workflow.stop plus the controller's stop listener (source lines 338-341);
the Workflow state machine itself is modelled from the spec (section 4.2):
stop moves any state to idle and rewinds the Sender; a duplicate stop is a
no-op. -/
def wfStop (s : CtrlState) : CtrlState :=
  if s.workflow = WorkflowState.idle then s
  else { s with workflow := WorkflowState.idle, sender := senderRewind s.sender }

/-- Workflow.pause plus the controller's pause listener (source lines
342-351); the Workflow state machine itself is modelled from the spec
(section 4.2): pause is valid only from running, stores the reason and holds
the Sender. -/
def wfPause (s : CtrlState) (reason : Option PauseReason) : CtrlState :=
  if s.workflow = WorkflowState.running then
    { s with workflow := WorkflowState.paused, pauseReason := reason,
             sender := { s.sender with hold := true } }
  else s

/-- Modelled from the spec: Sender.ack (spec sections 4.3 and 8, invariant 4):
an ok or error acknowledges exactly one previously sent line while
received < sent, dequeuing the head in-flight entry and freeing its bytes;
once received equals sent an ack leaves the Sender unchanged. -/
def senderAck (s : CtrlState) : CtrlState :=
  if s.sender.received < s.sender.sent then
    match s.sender.sp.queue with
    | [] => { s with sender := { s.sender with received := s.sender.received + 1 } }
    | b :: rest =>
        { s with sender := { s.sender with
            received := s.sender.received + 1,
            sp := { s.sender.sp with
                    queue := rest,
                    dataLength := s.sender.sp.dataLength - b } } }
  else s

/-- Modelled from the spec: Sender.unhold (spec section 4.3). -/
def senderUnhold (s : CtrlState) : CtrlState :=
  { s with sender := { s.sender with hold := false } }

/-- The sender data listener (source lines 303-322): drop the line when the
connection is closed, when the workflow is idle, or when the trimmed line is
empty; otherwise write the trimmed line plus a newline to the transport. -/
def senderData (s : CtrlState) (line : String) : CtrlState × List Output :=
  if s.isOpen = false then (s, [])
  else if s.workflow = WorkflowState.idle then (s, [])
  else
    let l := strTrim line
    if l.length = 0 then (s, [])
    else (s, [Output.write (l ++ "\n")])

/-- Modelled from the spec: the transmission step of Sender.next for one
preprocessed line (spec section 4.3): an empty line advances `sent` silently;
otherwise the line is sent when the in-flight queue is empty or when its
byte length plus the newline fits the remaining buffer, updating the
char-counting accounting and emitting the sender data event (which the
controller's listener `senderData` turns into a transport write). -/
def sendLine (s : CtrlState) (line : String) : CtrlState × List Output :=
  if (strTrim line).length = 0 then
    ({ s with sender := { s.sender with sent := s.sender.sent + 1 } }, [])
  else
    let bl : Int := line.length
    if s.sender.sp.queue = [] ∨
        s.sender.sp.dataLength + bl + 1 ≤ s.sender.sp.bufferSize then
      let s := { s with sender := { s.sender with
          sent := s.sender.sent + 1,
          sp := { s.sender.sp with
                  queue := s.sender.sp.queue ++ [bl],
                  dataLength := s.sender.sp.dataLength + bl } } }
      senderData s line
    else (s, [])

/-- The M0/M1 program-pause detection of the Sender dataFilter (source lines
283-292): a line containing M0 or M1 pauses the Workflow with that reason. -/
def applyPauseM01 (s : CtrlState) (line : String) : CtrlState :=
  if (gcodeWords line).contains ("M0") then wfPause s (some (PauseReason.data ("M0")))
  else if (gcodeWords line).contains ("M1") then wfPause s (some (PauseReason.data ("M1")))
  else s

/-- The pause detection of the Sender dataFilter (source lines 283-298):
M0/M1 program pause, then M6 tool change. -/
def applyPauseTriggers (s : CtrlState) (line : String) : CtrlState :=
  if (gcodeWords line).contains ("M6") then
    wfPause (applyPauseM01 s line) (some (PauseReason.data ("M6")))
  else applyPauseM01 s line

/-- Modelled from the spec: one step of Sender.next (spec section 4.3),
running the next program line through the controller's Sender dataFilter
(source lines 256-301: comment stripping; percent-wait holds the Sender and
becomes a dwell; other percent lines evaluate an expression and send nothing;
M0/M1/M6 pause the Workflow) and then through the flow-control send step.
Bracket-expression substitution is an external collaborator (spec section
4.1) and is modelled as the identity.  A held Sender does nothing. -/
def senderNext (s : CtrlState) : CtrlState × List Output :=
  if s.sender.hold then (s, [])
  else
    match s.sender.lines.get? s.sender.sent with
    | none => (s, [])
    | some rawLine =>
      if stripComment rawLine == "%wait" then
        sendLine { s with sender := { s.sender with hold := true } } ("G4 P0.5 (%wait)")
      else if startsWithChar (Char.ofNat 37) (stripComment rawLine) = true then
        ({ s with sender := { s.sender with sent := s.sender.sent + 1 } }, [])
      else
        sendLine (applyPauseTriggers s (stripComment rawLine)) (stripComment rawLine)

/-- Modelled from the spec: Feeder.reset (spec section 4.4): drop the queue
and clear hold and pending. -/
def feederReset (s : CtrlState) : CtrlState :=
  { s with feeder := { queue := [], hold := false, pending := false } }

/-- The feeder data listener (source lines 227-248): drop the line when the
connection is closed; while the controller reports alarm, reset the Feeder
and write nothing; drop an empty trimmed line; otherwise write the trimmed
line plus a newline to the transport. -/
def feederData (s : CtrlState) (line : String) : CtrlState × List Output :=
  if s.isOpen = false then (s, [])
  else if machineIsAlarm s.controller then (feederReset s, [])
  else
    let l := strTrim line
    if l.length = 0 then (s, [])
    else (s, [Output.write (l ++ "\n")])

/-- Emission step of the Feeder: fire the feeder data listener and mark the
Feeder pending exactly when the line was actually written (modelled from the
spec, section 4.4: on successful write pending becomes true). -/
def feederEmit (s : CtrlState) (line : String) : CtrlState × List Output :=
  if (feederData s line).2.any Output.isWrite then
    ({ (feederData s line).1 with
       feeder := { (feederData s line).1.feeder with pending := true } },
     (feederData s line).2)
  else feederData s line

/-- The M0/M1 program-pause detection of the Feeder dataFilter (source lines
207-216): a line containing M0 or M1 holds the Feeder. -/
def applyFeederHoldM01 (s : CtrlState) (line : String) : CtrlState :=
  if (gcodeWords line).contains ("M0") then { s with feeder := { s.feeder with hold := true } }
  else if (gcodeWords line).contains ("M1") then { s with feeder := { s.feeder with hold := true } }
  else s

/-- The hold detection of the Feeder dataFilter (source lines 207-222):
M0/M1 program pause, then M6 tool change; each holds the Feeder. -/
def applyFeederHoldTriggers (s : CtrlState) (line : String) : CtrlState :=
  if (gcodeWords line).contains ("M6") then
    { applyFeederHoldM01 s line with
      feeder := { (applyFeederHoldM01 s line).feeder with hold := true } }
  else applyFeederHoldM01 s line

/-- Dequeue the head line of the Feeder. -/
def feederDequeue (s : CtrlState) (rest : List String) : CtrlState :=
  { s with feeder := { s.feeder with queue := rest } }

/-- Modelled from the spec: Feeder.next (spec section 4.4): when neither
holding nor pending, dequeue the head line, run it through the controller's
Feeder dataFilter (source lines 183-225: comment stripping; percent-wait
becomes a dwell; other percent lines send nothing; M0/M1/M6 hold the Feeder)
and emit it. -/
def feederNext (s : CtrlState) : CtrlState × List Output :=
  if s.feeder.hold ∨ s.feeder.pending then (s, [])
  else
    match s.feeder.queue with
    | [] => (s, [])
    | rawLine :: rest =>
      if stripComment rawLine == "%wait" then
        feederEmit (feederDequeue s rest) ("G4 P0.5 (%wait)")
      else if startsWithChar (Char.ofNat 37) (stripComment rawLine) = true then (feederDequeue s rest, [])
      else
        feederEmit (applyFeederHoldTriggers (feederDequeue s rest) (stripComment rawLine))
          (stripComment rawLine)

/-- The status event listener (source lines 368-402): clear the
queryStatusReport mask; if a user-originated status query is pending, surface
the raw report once; then, when the report carries a positive receive-buffer
size, the workflow is idle, the protocol is char-counting (always, here) and
the in-flight queue is empty, raise bufferSize to the reported size minus the
safety margin of 8 when that is larger.  `bufRx` is Number(res.buf.rx) with 0
for a missing field. -/
def onStatus (s : CtrlState) (raw : String) (bufRx : Int) : CtrlState × List Output :=
  let s := { s with mask := { s.mask with queryStatusReport := false } }
  let p :=
    if s.mask.replyStatusReport then
      ({ s with mask := { s.mask with replyStatusReport := false } }, [Output.read raw])
    else (s, ([] : List Output))
  let s := p.1
  if bufRx > 0 then
    if s.workflow ≠ WorkflowState.idle then p
    else if s.sender.sp.dataLength ≠ 0 then p
    else
      let bufferSize := bufRx - 8
      if bufferSize > s.sender.sp.bufferSize then
        ({ s with sender := { s.sender with sp := { s.sender.sp with bufferSize := bufferSize } } }, p.2)
      else p
  else p

/-- The ok event listener (source lines 404-442): a pending parser-state
reply consumes the ok (surfacing the raw line once when a user-originated
parser-state query is pending) without touching Sender or Feeder; while
running, clear a hold that has caught up (received + 1 at or above sent),
acknowledge and attempt the next line; while paused and still catching up
(received below sent), acknowledge and attempt the next line; otherwise
surface the raw line and service the Feeder. -/
def onOk (s : CtrlState) (raw : String) : CtrlState × List Output :=
  if s.mask.queryParserState.reply then
    let p :=
      if s.mask.replyParserState then
        ({ s with mask := { s.mask with replyParserState := false } }, [Output.read raw])
      else (s, ([] : List Output))
    ({ p.1 with mask := { p.1.mask with
        queryParserState := { p.1.mask.queryParserState with reply := false } } }, p.2)
  else
    let hold := s.sender.hold
    let sent := s.sender.sent
    let received := s.sender.received
    if s.workflow = WorkflowState.running then
      let s := if hold ∧ (received + 1 ≥ sent) then senderUnhold s else s
      let s := senderAck s
      senderNext s
    else if s.workflow = WorkflowState.paused ∧ received < sent then
      let s := senderAck s
      senderNext s
    else
      let p := feederNext s
      (p.1, Output.read raw :: p.2)

/-- The error event listener (source lines 444-468): while running, surface
an annotated echo of the offending line (lines[received], trimmed, with line
number received + 1) followed by the raw error; unless the ignoreErrors
configuration flag is set, pause the Workflow with the raw error as reason;
then acknowledge and attempt the next line.  Otherwise surface the raw error
and service the Feeder. -/
def onError (s : CtrlState) (ignoreErrors : Bool) (raw : String) : CtrlState × List Output :=
  if s.workflow = WorkflowState.running then
    let line := s.sender.lines.getD s.sender.received ("")
    let out1 := Output.read ("> " ++ strTrim line ++ " (line=" ++ toString (s.sender.received + 1) ++ ")")
    let out2 := Output.read raw
    let s := if ignoreErrors = false then wfPause s (some (PauseReason.err raw)) else s
    let s := senderAck s
    let p := senderNext s
    (p.1, out1 :: out2 :: p.2)
  else
    let p := feederNext s
    (p.1, Output.read raw :: p.2)

/-- The alarm event listener (source lines 470-472): surface the raw line to
the sessions; nothing else happens here. -/
def onAlarm (s : CtrlState) (raw : String) : CtrlState × List Output :=
  (s, [Output.read raw])

/-- The parserstate event listener (source lines 474-481): unconditionally
clear the state mask and set the reply mask; surface the raw line when a
user-originated parser-state query is pending (without clearing that flag
here). -/
def onParserState (s : CtrlState) (raw : String) : CtrlState × List Output :=
  let s := { s with mask := { s.mask with
      queryParserState := { state := false, reply := true } } }
  if s.mask.replyParserState then (s, [Output.read raw]) else (s, [])

/-- The queryStatusReport closure (source lines 495-525): when ready, clear a
stale mask after 5 seconds without a status report, and when the mask is
clear and the connection open, set the mask, record the query time and write
a single status-request byte directly to the transport. -/
def queryStatusReportFn (s : CtrlState) (now : Int) : CtrlState × List Output :=
  if s.ready = false then (s, [])
  else
    let s :=
      if s.time.queryStatusReport > 0 ∧ (now - s.time.queryStatusReport).natAbs ≥ 5000 then
        { s with mask := { s.mask with queryStatusReport := false } }
      else s
    if s.mask.queryStatusReport then (s, [])
    else if s.isOpen then
      ({ s with mask := { s.mask with queryStatusReport := true },
                time := { s.time with queryStatusReport := now } }, [Output.write ("?")])
    else (s, [])

/-- The body of the queryParserState closure (source lines 529-566): when
ready, and only when the workflow is idle and the machine is idle, clear the
two parser-state masks after 10 seconds without progress; then, when both
masks are clear and the connection open, set the state mask, record the query
time and write the parser-state query. -/
def queryParserStateBody (s : CtrlState) (now : Int) : CtrlState × List Output :=
  if s.ready = false then (s, [])
  else
    let s :=
      if s.workflow = WorkflowState.idle ∧ machineIsIdle s.controller then
        if s.time.queryParserState > 0 ∧ (now - s.time.queryParserState).natAbs ≥ 10000 then
          { s with mask := { s.mask with queryParserState := { state := false, reply := false } } }
        else s
      else s
    if s.mask.queryParserState.state ∨ s.mask.queryParserState.reply then (s, [])
    else if s.isOpen then
      ({ s with mask := { s.mask with queryParserState := { state := true, reply := false } },
                time := { s.time with queryParserState := now } }, [Output.write ("$G\n")])
    else (s, [])

/-- Modelled from the spec: the 500 ms throttle wrapped around
queryParserState (spec section 4.5: at most one invocation per 500 ms; the
lodash throttle is an external collaborator).  The body is invoked only when
at least 500 ms have passed since the last invocation (or on the first
call), and the invocation time is recorded. -/
def queryParserStateThrottled (s : CtrlState) (now : Int) : CtrlState × List Output :=
  if s.qpsThrottleLast = 0 ∨ (now - s.qpsThrottleLast).natAbs ≥ 500 then
    let p := queryParserStateBody s now
    ({ p.1 with qpsThrottleLast := now }, p.2)
  else (s, [])

/-- The controller's write method (source lines 1183-1197): drop the data on
a closed connection; otherwise record whether the trimmed command is a
user-originated status or parser-state query and write the data. -/
def ctrlWrite (s : CtrlState) (data : String) : CtrlState × List Output :=
  if s.isOpen = false then (s, [])
  else
    let cmd := strTrim data
    let s := { s with mask := { s.mask with
        replyStatusReport := (cmd == "?") || s.mask.replyStatusReport,
        replyParserState := (cmd == "$G") || s.mask.replyParserState } }
    (s, [Output.write data])

/-- The sender:stop command (source lines 957-966): stop the Workflow, and
when the cached machine state is Hold, write a realtime resume. -/
def cmdSenderStop (s : CtrlState) : CtrlState × List Output :=
  let s := wfStop s
  if s.cachedState.machineState == "Hold" then ctrlWrite s ("~")
  else (s, [])

/-- The line normalization of the gcode command (source lines 1105-1114):
join the commands with newlines, split back into lines and drop the lines
that are blank after trimming. -/
def gcodeLines (commands : List String) : List String :=
  ((splitOnChar (Char.ofNat 10)
      (List.intercalate [Char.ofNat 10] (commands.map String.data))).map String.mk).filter
    (fun line => (strTrim line).length > 0)

/-- The gcode command (source lines 1103-1121): normalize the commands to
lines, append them to the Feeder queue and, when the Feeder is not pending,
service it. -/
def cmdGcode (s : CtrlState) (commands : List String) : CtrlState × List Output :=
  if s.feeder.pending = false then
    feederNext { s with feeder := { s.feeder with queue := s.feeder.queue ++ gcodeLines commands } }
  else
    ({ s with feeder := { s.feeder with queue := s.feeder.queue ++ gcodeLines commands } }, [])

/-- The override computation shared by the feed and spindle overrides
(source lines 1028-1036 and 1054-1062): a delta of zero resets to 100,
otherwise the delta is added to the current value and the sum clamped to
10..200. -/
def clampOverride (cur value : Int) : Int :=
  if value = 0 then 100
  else if cur + value > 200 then 200
  else if cur + value < 10 then 10
  else cur + value

/-- The feed-override command (source lines 1024-1047): read the current
override from the snapshot's ovF; compute the new value; enqueue the
resulting M220S command via the gcode path; then write the new value into
state.status.ovF. -/
def cmdOverrideFeed (s : CtrlState) (value : Int) : CtrlState × List Output :=
  ((fun p => ({ p.1 with controller := { p.1.controller with
       status_ovF := clampOverride s.controller.ovF value } }, p.2))
    (cmdGcode s [("M220S") ++ toString (clampOverride s.controller.ovF value)]))

/-- The spindle-override command (source lines 1050-1073): identical to the
feed override with ovS, M221S and state.status.ovS. -/
def cmdOverrideSpindle (s : CtrlState) (value : Int) : CtrlState × List Output :=
  ((fun p => ({ p.1 with controller := { p.1.controller with
       status_ovS := clampOverride s.controller.ovS value } }, p.2))
    (cmdGcode s [("M221S") ++ toString (clampOverride s.controller.ovS value)]))

/-- The end-of-program fragment of the periodic tick (source lines 614-632):
with a positive senderFinishTime, the machine counts as idle when the work
position cached before the tick's state sync equals the parser's current work
position (zeroOffset) and the machine state is Idle; when not idle the finish
time slides forward to now; when idle for more than 500 ms the finish time is
cleared and an internal sender:stop is issued. -/
def tickFinish (s : CtrlState) (now : Int) (zeroOffset : Bool) : CtrlState × List Output :=
  if s.time.senderFinishTime > 0 then
    let machineIdle := zeroOffset ∧ machineIsIdle s.controller
    let timespan := (now - s.time.senderFinishTime).natAbs
    if ¬ machineIdle then
      ({ s with time := { s.time with senderFinishTime := now } }, [])
    else if timespan > 500 then
      cmdSenderStop { s with time := { s.time with senderFinishTime := 0 } }
    else (s, [])
  else (s, [])

/-- The 250 ms periodic tick (source lines 568-633), restricted to the parts
that change state or produce protocol output: nothing on a closed connection;
compute zeroOffset from the pre-sync cached state; sync the cached state to
the parser's; stop when not ready; run the status query, the throttled
parser-state query and the end-of-program check.  The feeder:status,
sender:status, controller:settings and controller:state session emissions are
not modelled. -/
def tick (s : CtrlState) (now : Int) : CtrlState × List Output :=
  if s.isOpen = false then (s, [])
  else
    let zeroOffset := s.cachedState.wpos = s.controller.wpos
    let s := { s with cachedState := s.controller }
    if s.ready = false then (s, [])
    else
      let p1 := queryStatusReportFn s now
      let p2 := queryParserStateThrottled p1.1 now
      let p3 := tickFinish p2.1 now (decide zeroOffset)
      (p3.1, p1.2 ++ p2.2 ++ p3.2)

/-- The external inputs that drive the controller: parser events, the
periodic tick and the dispatcher commands the claims mention. -/
inductive Event where
  | status (raw : String) (bufRx : Int)
  | ok (raw : String)
  | err (ignoreErrors : Bool) (raw : String)
  | alarm (raw : String)
  | parserstate (raw : String)
  | tick (now : Int)
  | gcode (commands : List String)
  | overrideFeed (value : Int)
  | overrideSpindle (value : Int)
  | senderStop
deriving Repr, DecidableEq

/-- One step of the controller: dispatch an event to its handler. -/
def step (s : CtrlState) (ev : Event) : CtrlState × List Output :=
  match ev with
  | .status raw bufRx => onStatus s raw bufRx
  | .ok raw => onOk s raw
  | .err ig raw => onError s ig raw
  | .alarm raw => onAlarm s raw
  | .parserstate raw => onParserState s raw
  | .tick now => tick s now
  | .gcode commands => cmdGcode s commands
  | .overrideFeed v => cmdOverrideFeed s v
  | .overrideSpindle v => cmdOverrideSpindle s v
  | .senderStop => cmdSenderStop s

/-- Run a sequence of events, discarding the outputs. -/
def runEvents (s : CtrlState) (evs : List Event) : CtrlState :=
  evs.foldl (fun t e => (step t e).1) s

/-- A machine snapshot with everything idle and both overrides at 100. -/
def baseMachine : MachineState :=
  { machineState := "Idle", wpos := ⟨0, 0, 0⟩,
    ovF := 100, status_ovF := 100, ovS := 100, status_ovS := 100 }

/-- A quiescent controller: open, ready, idle workflow, clear masks, empty
Sender and Feeder, default buffer size 120. -/
def baseState : CtrlState :=
  { ready := true, isOpen := true, workflow := WorkflowState.idle,
    pauseReason := none,
    mask := { queryParserState := { state := false, reply := false },
              queryStatusReport := false, replyParserState := false,
              replyStatusReport := false },
    time := { queryParserState := 0, queryStatusReport := 0, senderFinishTime := 0 },
    qpsThrottleLast := 0,
    sender := { lines := [], sent := 0, received := 0, hold := false,
                sp := { bufferSize := 120, dataLength := 0, queue := [] } },
    feeder := { queue := [], hold := false, pending := false },
    controller := baseMachine, cachedState := baseMachine }

/-- A controller mid-stream: workflow running, three program lines loaded,
two sent and none acknowledged yet. -/
def exRunning : CtrlState :=
  { baseState with
    workflow := WorkflowState.running,
    sender := { lines := ["G1 X1", "G1 X2", "G1 X3"],
                sent := 2, received := 0, hold := false,
                sp := { bufferSize := 120, dataLength := 12, queue := [6, 6] } } }

/-- A running controller whose Sender is holding with one outstanding ack. -/
def exHold : CtrlState :=
  { exRunning with
    sender := { exRunning.sender with
                sent := 1, received := 0, hold := true,
                sp := { bufferSize := 120, dataLength := 6, queue := [6] } } }

/-- A paused controller whose Sender is still catching up (received < sent). -/
def exPausedCatch : CtrlState :=
  { exRunning with
    workflow := WorkflowState.paused,
    sender := { exRunning.sender with
                sent := 2, received := 1, hold := true,
                sp := { bufferSize := 120, dataLength := 6, queue := [6] } } }

/-- A paused controller whose Sender has fully caught up (received = sent). -/
def exPausedDone : CtrlState :=
  { exRunning with
    workflow := WorkflowState.paused,
    sender := { exRunning.sender with
                sent := 2, received := 2, hold := true,
                sp := { bufferSize := 120, dataLength := 0, queue := [] } } }

/-- A running controller awaiting the ok that closes a user-originated
parser-state query. -/
def exReplyMask : CtrlState :=
  { exRunning with
    mask := { exRunning.mask with
              queryParserState := { state := false, reply := true },
              replyParserState := true } }

/-- A controller in alarm with a line waiting in the Feeder. -/
def exAlarm : CtrlState :=
  { baseState with
    controller := { baseMachine with machineState := "Alarm" },
    feeder := { queue := ["G0 X0"], hold := false, pending := false } }

/-- A controller with both overrides at 195 and a pending Feeder. -/
def exOverride : CtrlState :=
  { baseState with
    controller := { baseMachine with
                    ovF := 195, status_ovF := 195, ovS := 195, status_ovS := 195 },
    feeder := { queue := [], hold := false, pending := true } }

/-- A ready, open controller with a running workflow, both parser-state masks
clear and the status-report query masked out for this tick. -/
def exQueryRun : CtrlState :=
  { baseState with
    workflow := WorkflowState.running,
    mask := { baseState.mask with queryStatusReport := true },
    time := { baseState.time with queryStatusReport := 1000 } }

/-- A controller whose parser-state throttle fired 100 ms ago. -/
def exThrottle : CtrlState :=
  { baseState with qpsThrottleLast := 600 }

/-- A running controller whose Sender finished 900 ms before the next tick. -/
def exFinish : CtrlState :=
  { baseState with
    workflow := WorkflowState.running,
    time := { baseState.time with senderFinishTime := 100 } }

/-- Like exFinish, but the cached work position disagrees with the machine. -/
def exFinishBusy : CtrlState :=
  { exFinish with cachedState := { baseMachine with wpos := ⟨5, 0, 0⟩ } }

/-! Frame lemmas: which parts of the state each operation leaves alone. -/

lemma senderData_fst (s : CtrlState) (line : String) : (senderData s line).1 = s := by
  unfold senderData
  dsimp only
  split_ifs <;> rfl

lemma sendLine_frame (s : CtrlState) (line : String) :
    (sendLine s line).1.sender.received = s.sender.received ∧
    (sendLine s line).1.sender.hold = s.sender.hold ∧
    (sendLine s line).1.sender.lines = s.sender.lines ∧
    (sendLine s line).1.sender.sp.bufferSize = s.sender.sp.bufferSize ∧
    (sendLine s line).1.workflow = s.workflow ∧
    (sendLine s line).1.pauseReason = s.pauseReason ∧
    (sendLine s line).1.feeder = s.feeder ∧
    (sendLine s line).1.controller = s.controller ∧
    (sendLine s line).1.mask = s.mask ∧
    (sendLine s line).1.time = s.time := by
  unfold sendLine senderData
  dsimp only
  split_ifs <;> exact ⟨rfl, rfl, rfl, rfl, rfl, rfl, rfl, rfl, rfl, rfl⟩

lemma wfPause_frame (s : CtrlState) (r : Option PauseReason) :
    (wfPause s r).sender.received = s.sender.received ∧
    (wfPause s r).sender.sent = s.sender.sent ∧
    (wfPause s r).sender.lines = s.sender.lines ∧
    (wfPause s r).sender.sp = s.sender.sp ∧
    (wfPause s r).feeder = s.feeder ∧
    (wfPause s r).controller = s.controller ∧
    (wfPause s r).mask = s.mask ∧
    (wfPause s r).time = s.time := by
  unfold wfPause
  split <;> exact ⟨rfl, rfl, rfl, rfl, rfl, rfl, rfl, rfl⟩

lemma applyPauseM01_frame (s : CtrlState) (line : String) :
    (applyPauseM01 s line).sender.received = s.sender.received ∧
    (applyPauseM01 s line).sender.sent = s.sender.sent ∧
    (applyPauseM01 s line).sender.lines = s.sender.lines ∧
    (applyPauseM01 s line).sender.sp = s.sender.sp ∧
    (applyPauseM01 s line).feeder = s.feeder ∧
    (applyPauseM01 s line).controller = s.controller ∧
    (applyPauseM01 s line).mask = s.mask ∧
    (applyPauseM01 s line).time = s.time := by
  unfold applyPauseM01
  split_ifs <;>
    first
    | exact wfPause_frame s _
    | exact ⟨rfl, rfl, rfl, rfl, rfl, rfl, rfl, rfl⟩

lemma applyPauseTriggers_frame (s : CtrlState) (line : String) :
    (applyPauseTriggers s line).sender.received = s.sender.received ∧
    (applyPauseTriggers s line).sender.sent = s.sender.sent ∧
    (applyPauseTriggers s line).sender.lines = s.sender.lines ∧
    (applyPauseTriggers s line).sender.sp = s.sender.sp ∧
    (applyPauseTriggers s line).feeder = s.feeder ∧
    (applyPauseTriggers s line).controller = s.controller ∧
    (applyPauseTriggers s line).mask = s.mask ∧
    (applyPauseTriggers s line).time = s.time := by
  unfold applyPauseTriggers
  split_ifs
  · obtain ⟨a1, a2, a3, a4, a5, a6, a7, a8⟩ := applyPauseM01_frame s line
    obtain ⟨b1, b2, b3, b4, b5, b6, b7, b8⟩ :=
      wfPause_frame (applyPauseM01 s line) (some (PauseReason.data ("M6")))
    exact ⟨b1.trans a1, b2.trans a2, b3.trans a3, b4.trans a4,
           b5.trans a5, b6.trans a6, b7.trans a7, b8.trans a8⟩
  · exact applyPauseM01_frame s line

lemma senderNext_frame (s : CtrlState) :
    (senderNext s).1.sender.received = s.sender.received ∧
    (senderNext s).1.sender.lines = s.sender.lines ∧
    (senderNext s).1.sender.sp.bufferSize = s.sender.sp.bufferSize ∧
    (senderNext s).1.feeder = s.feeder ∧
    (senderNext s).1.controller = s.controller ∧
    (senderNext s).1.mask = s.mask ∧
    (senderNext s).1.time = s.time := by
  unfold senderNext
  split
  · exact ⟨rfl, rfl, rfl, rfl, rfl, rfl, rfl⟩
  · split
    · exact ⟨rfl, rfl, rfl, rfl, rfl, rfl, rfl⟩
    · rename_i rawLine _
      split_ifs
      · obtain ⟨h1, h2, h3, h4, h5, h6, h7, h8, h9, h10⟩ :=
          sendLine_frame { s with sender := { s.sender with hold := true } } ("G4 P0.5 (%wait)")
        exact ⟨h1, h3, h4, h7, h8, h9, h10⟩
      · exact ⟨rfl, rfl, rfl, rfl, rfl, rfl, rfl⟩
      · obtain a := applyPauseTriggers_frame s (stripComment rawLine)
        obtain h := sendLine_frame (applyPauseTriggers s (stripComment rawLine)) (stripComment rawLine)
        refine ⟨?_, ?_, ?_, ?_, ?_, ?_, ?_⟩
        · rw [h.1, a.1]
        · rw [h.2.2.1, a.2.2.1]
        · rw [h.2.2.2.1, a.2.2.2.1]
        · rw [h.2.2.2.2.2.2.1, a.2.2.2.2.1]
        · rw [h.2.2.2.2.2.2.2.1, a.2.2.2.2.2.1]
        · rw [h.2.2.2.2.2.2.2.2.1, a.2.2.2.2.2.2.1]
        · rw [h.2.2.2.2.2.2.2.2.2, a.2.2.2.2.2.2.2]

lemma feederData_frame (s : CtrlState) (line : String) :
    (feederData s line).1.sender = s.sender ∧
    (feederData s line).1.workflow = s.workflow ∧
    (feederData s line).1.pauseReason = s.pauseReason ∧
    (feederData s line).1.controller = s.controller ∧
    (feederData s line).1.cachedState = s.cachedState ∧
    (feederData s line).1.mask = s.mask ∧
    (feederData s line).1.time = s.time ∧
    (feederData s line).1.ready = s.ready ∧
    (feederData s line).1.isOpen = s.isOpen ∧
    (feederData s line).1.qpsThrottleLast = s.qpsThrottleLast := by
  unfold feederData feederReset
  dsimp only
  split_ifs <;> exact ⟨rfl, rfl, rfl, rfl, rfl, rfl, rfl, rfl, rfl, rfl⟩

lemma feederEmit_frame (s : CtrlState) (line : String) :
    (feederEmit s line).1.sender = s.sender ∧
    (feederEmit s line).1.workflow = s.workflow ∧
    (feederEmit s line).1.pauseReason = s.pauseReason ∧
    (feederEmit s line).1.controller = s.controller ∧
    (feederEmit s line).1.cachedState = s.cachedState ∧
    (feederEmit s line).1.mask = s.mask ∧
    (feederEmit s line).1.time = s.time ∧
    (feederEmit s line).1.ready = s.ready ∧
    (feederEmit s line).1.isOpen = s.isOpen ∧
    (feederEmit s line).1.qpsThrottleLast = s.qpsThrottleLast := by
  unfold feederEmit
  split_ifs
  · exact feederData_frame s line
  · exact feederData_frame s line

lemma applyFeederHoldM01_frame (s : CtrlState) (line : String) :
    (applyFeederHoldM01 s line).sender = s.sender ∧
    (applyFeederHoldM01 s line).workflow = s.workflow ∧
    (applyFeederHoldM01 s line).pauseReason = s.pauseReason ∧
    (applyFeederHoldM01 s line).controller = s.controller ∧
    (applyFeederHoldM01 s line).cachedState = s.cachedState ∧
    (applyFeederHoldM01 s line).mask = s.mask ∧
    (applyFeederHoldM01 s line).time = s.time ∧
    (applyFeederHoldM01 s line).ready = s.ready ∧
    (applyFeederHoldM01 s line).isOpen = s.isOpen ∧
    (applyFeederHoldM01 s line).qpsThrottleLast = s.qpsThrottleLast := by
  unfold applyFeederHoldM01
  split_ifs <;> exact ⟨rfl, rfl, rfl, rfl, rfl, rfl, rfl, rfl, rfl, rfl⟩

lemma applyFeederHoldTriggers_frame (s : CtrlState) (line : String) :
    (applyFeederHoldTriggers s line).sender = s.sender ∧
    (applyFeederHoldTriggers s line).workflow = s.workflow ∧
    (applyFeederHoldTriggers s line).pauseReason = s.pauseReason ∧
    (applyFeederHoldTriggers s line).controller = s.controller ∧
    (applyFeederHoldTriggers s line).cachedState = s.cachedState ∧
    (applyFeederHoldTriggers s line).mask = s.mask ∧
    (applyFeederHoldTriggers s line).time = s.time ∧
    (applyFeederHoldTriggers s line).ready = s.ready ∧
    (applyFeederHoldTriggers s line).isOpen = s.isOpen ∧
    (applyFeederHoldTriggers s line).qpsThrottleLast = s.qpsThrottleLast := by
  unfold applyFeederHoldTriggers
  split_ifs
  · exact applyFeederHoldM01_frame s line
  · exact applyFeederHoldM01_frame s line

lemma feederNext_frame (s : CtrlState) :
    (feederNext s).1.sender = s.sender ∧
    (feederNext s).1.workflow = s.workflow ∧
    (feederNext s).1.pauseReason = s.pauseReason ∧
    (feederNext s).1.controller = s.controller ∧
    (feederNext s).1.cachedState = s.cachedState ∧
    (feederNext s).1.mask = s.mask ∧
    (feederNext s).1.time = s.time ∧
    (feederNext s).1.ready = s.ready ∧
    (feederNext s).1.isOpen = s.isOpen ∧
    (feederNext s).1.qpsThrottleLast = s.qpsThrottleLast := by
  unfold feederNext
  split
  · exact ⟨rfl, rfl, rfl, rfl, rfl, rfl, rfl, rfl, rfl, rfl⟩
  · split
    · exact ⟨rfl, rfl, rfl, rfl, rfl, rfl, rfl, rfl, rfl, rfl⟩
    · rename_i rawLine rest heq
      split_ifs
      · exact feederEmit_frame (feederDequeue s rest) ("G4 P0.5 (%wait)")
      · exact ⟨rfl, rfl, rfl, rfl, rfl, rfl, rfl, rfl, rfl, rfl⟩
      · obtain ⟨a1, a2, a3, a4, a5, a6, a7, a8, a9, a10⟩ :=
          applyFeederHoldTriggers_frame (feederDequeue s rest) (stripComment rawLine)
        obtain ⟨b1, b2, b3, b4, b5, b6, b7, b8, b9, b10⟩ :=
          feederEmit_frame
            (applyFeederHoldTriggers (feederDequeue s rest) (stripComment rawLine))
            (stripComment rawLine)
        exact ⟨b1.trans a1, b2.trans a2, b3.trans a3, b4.trans a4, b5.trans a5,
               b6.trans a6, b7.trans a7, b8.trans a8, b9.trans a9, b10.trans a10⟩

lemma senderAck_frame (s : CtrlState) :
    (senderAck s).sender.sent = s.sender.sent ∧
    (senderAck s).sender.hold = s.sender.hold ∧
    (senderAck s).sender.lines = s.sender.lines ∧
    (senderAck s).sender.sp.bufferSize = s.sender.sp.bufferSize ∧
    (senderAck s).workflow = s.workflow ∧
    (senderAck s).pauseReason = s.pauseReason ∧
    (senderAck s).feeder = s.feeder ∧
    (senderAck s).controller = s.controller ∧
    (senderAck s).cachedState = s.cachedState ∧
    (senderAck s).mask = s.mask ∧
    (senderAck s).time = s.time := by
  unfold senderAck
  split
  · split <;> exact ⟨rfl, rfl, rfl, rfl, rfl, rfl, rfl, rfl, rfl, rfl, rfl⟩
  · exact ⟨rfl, rfl, rfl, rfl, rfl, rfl, rfl, rfl, rfl, rfl, rfl⟩

lemma senderAck_received (s : CtrlState) (h : s.sender.received < s.sender.sent) :
    (senderAck s).sender.received = s.sender.received + 1 := by
  unfold senderAck
  rw [if_pos h]
  split <;> rfl

lemma senderAck_of_ge (s : CtrlState) (h : s.sender.sent ≤ s.sender.received) :
    senderAck s = s := by
  unfold senderAck
  rw [if_neg (by omega)]

lemma senderNext_of_hold (s : CtrlState) (h : s.sender.hold = true) :
    senderNext s = (s, []) := by
  unfold senderNext
  rw [if_pos h]

lemma applyPauseTriggers_id (s : CtrlState) (line : String)
    (h0 : (gcodeWords line).contains ("M0") = false)
    (h1 : (gcodeWords line).contains ("M1") = false)
    (h6 : (gcodeWords line).contains ("M6") = false) :
    applyPauseTriggers s line = s := by
  unfold applyPauseTriggers applyPauseM01
  split_ifs <;> simp_all

lemma senderNext_hold_of_no_trigger (s : CtrlState) (h : s.sender.hold = false)
    (ht : pauseTrigger (s.sender.lines.getD s.sender.sent ("")) = false) :
    (senderNext s).1.sender.hold = false := by
  unfold senderNext
  rw [h]
  simp only [Bool.false_eq_true, if_false]
  rcases hq : s.sender.lines.get? s.sender.sent with _ | rawLine
  · exact h
  · have hgd : s.sender.lines.getD s.sender.sent ("") = rawLine := by
      unfold List.getD
      rw [hq]
      rfl
    rw [hgd] at ht
    unfold pauseTrigger at ht
    simp only [Bool.or_eq_false_iff] at ht
    obtain ⟨⟨⟨hw, hm0⟩, hm1⟩, hm6⟩ := ht
    simp only [hw, Bool.false_eq_true, if_false]
    split_ifs with hpc
    · exact h
    · rw [applyPauseTriggers_id s (stripComment rawLine) hm0 hm1 hm6]
      rw [(sendLine_frame s (stripComment rawLine)).2.1]
      exact h

lemma onOk_reply_frame (s : CtrlState) (raw : String)
    (h : s.mask.queryParserState.reply = true) :
    (onOk s raw).1.sender = s.sender ∧
    (onOk s raw).1.feeder = s.feeder ∧
    (onOk s raw).1.workflow = s.workflow ∧
    (onOk s raw).1.mask.queryParserState.reply = false ∧
    (onOk s raw).1.mask.replyParserState = false ∧
    (onOk s raw).2 = (if s.mask.replyParserState = true then [Output.read raw] else []) := by
  unfold onOk
  rw [if_pos h]
  dsimp only
  split_ifs with h2 <;> simp_all

lemma onOk_bufferSize (s : CtrlState) (raw : String) :
    (onOk s raw).1.sender.sp.bufferSize = s.sender.sp.bufferSize := by
  unfold onOk
  dsimp only
  split_ifs <;>
    first
    | rfl
    | (rw [(senderNext_frame _).2.2.1, (senderAck_frame _).2.2.2.1]; try rfl)
    | (rw [congrArg SenderState.sp (feederNext_frame _).1])

lemma onError_bufferSize (s : CtrlState) (ig : Bool) (raw : String) :
    (onError s ig raw).1.sender.sp.bufferSize = s.sender.sp.bufferSize := by
  unfold onError
  dsimp only
  split_ifs <;>
    first
    | (rw [(senderNext_frame _).2.2.1, (senderAck_frame _).2.2.2.1,
           congrArg SPState.bufferSize (wfPause_frame _ _).2.2.2.1])
    | (rw [(senderNext_frame _).2.2.1, (senderAck_frame _).2.2.2.1])
    | (rw [congrArg SenderState.sp (feederNext_frame _).1])

lemma onParserState_frame (s : CtrlState) (raw : String) :
    (onParserState s raw).1.sender = s.sender ∧
    (onParserState s raw).1.feeder = s.feeder ∧
    (onParserState s raw).1.workflow = s.workflow ∧
    (onParserState s raw).1.mask.queryParserState.reply = true ∧
    (onParserState s raw).1.mask.queryParserState.state = false := by
  unfold onParserState
  dsimp only
  split_ifs <;> exact ⟨rfl, rfl, rfl, rfl, rfl⟩

lemma onStatus_bufferSize_mono (s : CtrlState) (raw : String) (bufRx : Int) :
    s.sender.sp.bufferSize ≤ (onStatus s raw bufRx).1.sender.sp.bufferSize := by
  unfold onStatus
  dsimp only
  split_ifs <;> simp_all <;> omega

lemma onStatus_bufferSize_update (s : CtrlState) (raw : String) (bufRx : Int)
    (hpos : bufRx > 0) (hidle : s.workflow = WorkflowState.idle)
    (hq : s.sender.sp.dataLength = 0) :
    (onStatus s raw bufRx).1.sender.sp.bufferSize
      = max s.sender.sp.bufferSize (bufRx - 8) := by
  unfold onStatus
  dsimp only
  split_ifs <;> simp_all <;> omega

lemma queryStatusReportFn_frame (s : CtrlState) (now : Int) :
    (queryStatusReportFn s now).1.sender = s.sender ∧
    (queryStatusReportFn s now).1.workflow = s.workflow ∧
    (queryStatusReportFn s now).1.controller = s.controller ∧
    (queryStatusReportFn s now).1.cachedState = s.cachedState ∧
    (queryStatusReportFn s now).1.feeder = s.feeder ∧
    (queryStatusReportFn s now).1.time.senderFinishTime = s.time.senderFinishTime ∧
    (queryStatusReportFn s now).1.ready = s.ready ∧
    (queryStatusReportFn s now).1.isOpen = s.isOpen ∧
    (queryStatusReportFn s now).1.qpsThrottleLast = s.qpsThrottleLast ∧
    (queryStatusReportFn s now).1.pauseReason = s.pauseReason := by
  unfold queryStatusReportFn
  dsimp only
  split_ifs <;> exact ⟨rfl, rfl, rfl, rfl, rfl, rfl, rfl, rfl, rfl, rfl⟩

lemma queryParserStateBody_frame (s : CtrlState) (now : Int) :
    (queryParserStateBody s now).1.sender = s.sender ∧
    (queryParserStateBody s now).1.workflow = s.workflow ∧
    (queryParserStateBody s now).1.controller = s.controller ∧
    (queryParserStateBody s now).1.cachedState = s.cachedState ∧
    (queryParserStateBody s now).1.feeder = s.feeder ∧
    (queryParserStateBody s now).1.time.senderFinishTime = s.time.senderFinishTime ∧
    (queryParserStateBody s now).1.ready = s.ready ∧
    (queryParserStateBody s now).1.isOpen = s.isOpen ∧
    (queryParserStateBody s now).1.qpsThrottleLast = s.qpsThrottleLast ∧
    (queryParserStateBody s now).1.pauseReason = s.pauseReason := by
  unfold queryParserStateBody
  dsimp only
  split_ifs <;> exact ⟨rfl, rfl, rfl, rfl, rfl, rfl, rfl, rfl, rfl, rfl⟩

lemma queryParserStateThrottled_frame (s : CtrlState) (now : Int) :
    (queryParserStateThrottled s now).1.sender = s.sender ∧
    (queryParserStateThrottled s now).1.workflow = s.workflow ∧
    (queryParserStateThrottled s now).1.controller = s.controller ∧
    (queryParserStateThrottled s now).1.cachedState = s.cachedState ∧
    (queryParserStateThrottled s now).1.feeder = s.feeder ∧
    (queryParserStateThrottled s now).1.time.senderFinishTime = s.time.senderFinishTime ∧
    (queryParserStateThrottled s now).1.ready = s.ready ∧
    (queryParserStateThrottled s now).1.isOpen = s.isOpen ∧
    (queryParserStateThrottled s now).1.pauseReason = s.pauseReason := by
  unfold queryParserStateThrottled
  dsimp only
  obtain ⟨b1, b2, b3, b4, b5, b6, b7, b8, b9, b10⟩ := queryParserStateBody_frame s now
  split_ifs
  · exact ⟨b1, b2, b3, b4, b5, b6, b7, b8, b10⟩
  · exact ⟨rfl, rfl, rfl, rfl, rfl, rfl, rfl, rfl, rfl⟩

lemma wfStop_workflow (s : CtrlState) : (wfStop s).workflow = WorkflowState.idle := by
  unfold wfStop
  split_ifs with h
  · exact h
  · rfl

lemma wfStop_frame (s : CtrlState) :
    (wfStop s).sender.sp.bufferSize = s.sender.sp.bufferSize ∧
    (wfStop s).sender.lines = s.sender.lines ∧
    (wfStop s).feeder = s.feeder ∧
    (wfStop s).controller = s.controller ∧
    (wfStop s).cachedState = s.cachedState ∧
    (wfStop s).mask = s.mask ∧
    (wfStop s).time = s.time ∧
    (wfStop s).ready = s.ready ∧
    (wfStop s).isOpen = s.isOpen := by
  unfold wfStop senderRewind
  split_ifs <;> exact ⟨rfl, rfl, rfl, rfl, rfl, rfl, rfl, rfl, rfl⟩

lemma ctrlWrite_frame (s : CtrlState) (data : String) :
    (ctrlWrite s data).1.sender = s.sender ∧
    (ctrlWrite s data).1.workflow = s.workflow ∧
    (ctrlWrite s data).1.feeder = s.feeder ∧
    (ctrlWrite s data).1.controller = s.controller ∧
    (ctrlWrite s data).1.cachedState = s.cachedState ∧
    (ctrlWrite s data).1.time = s.time := by
  unfold ctrlWrite
  dsimp only
  split_ifs <;> exact ⟨rfl, rfl, rfl, rfl, rfl, rfl⟩

lemma cmdSenderStop_workflow (s : CtrlState) :
    (cmdSenderStop s).1.workflow = WorkflowState.idle := by
  unfold cmdSenderStop
  dsimp only
  split_ifs
  · rw [(ctrlWrite_frame _ _).2.1, wfStop_workflow]
  · exact wfStop_workflow s

lemma cmdSenderStop_frame (s : CtrlState) :
    (cmdSenderStop s).1.sender.sp.bufferSize = s.sender.sp.bufferSize ∧
    (cmdSenderStop s).1.time = s.time := by
  unfold cmdSenderStop
  dsimp only
  split_ifs
  · constructor
    · rw [congrArg SenderState.sp (ctrlWrite_frame _ _).1, (wfStop_frame s).1]
    · rw [(ctrlWrite_frame _ _).2.2.2.2.2, (wfStop_frame s).2.2.2.2.2.2.1]
  · exact ⟨(wfStop_frame s).1, (wfStop_frame s).2.2.2.2.2.2.1⟩

lemma tickFinish_bufferSize (s : CtrlState) (now : Int) (zo : Bool) :
    (tickFinish s now zo).1.sender.sp.bufferSize = s.sender.sp.bufferSize := by
  unfold tickFinish
  dsimp only
  split_ifs <;> first | rfl | exact (cmdSenderStop_frame _).1

lemma cmdGcode_sender (s : CtrlState) (commands : List String) :
    (cmdGcode s commands).1.sender = s.sender := by
  unfold cmdGcode
  split_ifs
  · exact (feederNext_frame _).1
  · rfl

lemma tick_bufferSize (s : CtrlState) (now : Int) :
    (tick s now).1.sender.sp.bufferSize = s.sender.sp.bufferSize := by
  unfold tick
  dsimp only
  split_ifs <;>
    first
    | rfl
    | (rw [tickFinish_bufferSize,
           congrArg SenderState.sp (queryParserStateThrottled_frame _ _).1,
           congrArg SenderState.sp (queryStatusReportFn_frame _ _).1])

lemma feederData_snd_of_alarm (s : CtrlState) (line : String)
    (h : machineIsAlarm s.controller = true) : (feederData s line).2 = [] := by
  unfold feederData
  dsimp only
  split_ifs <;> simp_all

lemma feederEmit_snd_of_alarm (s : CtrlState) (line : String)
    (h : machineIsAlarm s.controller = true) : (feederEmit s line).2 = [] := by
  unfold feederEmit
  split_ifs with hc
  · rw [feederData_snd_of_alarm s line h] at hc
    simp at hc
  · exact feederData_snd_of_alarm s line h

lemma feederNext_snd_of_alarm (s : CtrlState)
    (h : machineIsAlarm s.controller = true) : (feederNext s).2 = [] := by
  unfold feederNext
  split
  · rfl
  · split
    · rfl
    · rename_i rawLine rest heq
      split_ifs
      · exact feederEmit_snd_of_alarm _ _ h
      · rfl
      · refine feederEmit_snd_of_alarm _ _ ?_
        rw [(applyFeederHoldTriggers_frame _ _).2.2.2.1]
        exact h

/-- C9: a line emitted by the Sender data event is dropped when the workflow
is idle, the connection is closed, or the line trims to the empty string; it
is written to the transport as the trimmed line plus a newline exactly when
the connection is open, the workflow is running or paused, and the trimmed
line is non-empty. -/
theorem c9_sender_data_write_guard (s : CtrlState) (line : String) :
    ((s.workflow = WorkflowState.idle ∨ s.isOpen = false ∨ (strTrim line).length = 0) →
      senderData s line = (s, [])) ∧
    (s.isOpen = true → s.workflow ≠ WorkflowState.idle → (strTrim line).length ≠ 0 →
      senderData s line = (s, [Output.write (strTrim line ++ "\n")])) := by
  unfold senderData
  dsimp only
  constructor
  · rintro (h | h | h) <;> split_ifs <;> simp_all
  · intro h1 h2 h3
    split_ifs <;> simp_all

/-- Witness for C9 at a concrete running controller and a padded line. -/
theorem c9_witness :
    senderData { baseState with workflow := WorkflowState.running } ("  G1 X1 ")
      = ({ baseState with workflow := WorkflowState.running },
         [Output.write ("G1 X1\n")]) := by
  have h := (c9_sender_data_write_guard
      { baseState with workflow := WorkflowState.running } ("  G1 X1 ")).2
    (by decide) (by decide) (by decide)
  simpa using h

/-- C10: the parserstate event unconditionally sets the queryParserState
reply mask (and clears the state mask), so the next ok event leaves both the
Sender and the Feeder unchanged, regardless of workflow state. -/
theorem c10_parserstate_always_arms_reply_mask (s : CtrlState) (raw raw2 : String) :
    (onParserState s raw).1.mask.queryParserState.reply = true ∧
    (onParserState s raw).1.mask.queryParserState.state = false ∧
    (onOk (onParserState s raw).1 raw2).1.sender = (onParserState s raw).1.sender ∧
    (onOk (onParserState s raw).1 raw2).1.feeder = (onParserState s raw).1.feeder := by
  obtain ⟨p1, p2, p3, p4, p5⟩ := onParserState_frame s raw
  have h := onOk_reply_frame (onParserState s raw).1 raw2 p4
  exact ⟨p4, p5, h.1, h.2.1⟩

/-- C6: an ok event arriving with the queryParserState reply mask set is
consumed as the acknowledgement of a parser-state query: the raw line is
surfaced at most once (exactly when replyParserState was set, which is then
cleared), the reply mask is cleared, and neither the Sender nor the Feeder
changes. -/
theorem c6_ok_consumed_by_reply_mask (s : CtrlState) (raw : String)
    (h : s.mask.queryParserState.reply = true) :
    (onOk s raw).1.mask.queryParserState.reply = false ∧
    (onOk s raw).1.sender = s.sender ∧
    (onOk s raw).1.feeder = s.feeder ∧
    (onOk s raw).1.workflow = s.workflow ∧
    (onOk s raw).1.mask.replyParserState = false ∧
    (onOk s raw).2 = (if s.mask.replyParserState = true then [Output.read raw] else []) := by
  obtain ⟨a, b, c, d, e, f⟩ := onOk_reply_frame s raw h
  exact ⟨d, a, b, c, e, f⟩

/-- Witness for C6 at a running controller awaiting a parser-state reply. -/
theorem c6_witness :
    (onOk exReplyMask ("ok")).1.mask.queryParserState.reply = false ∧
    (onOk exReplyMask ("ok")).1.sender = exReplyMask.sender ∧
    (onOk exReplyMask ("ok")).2 = [Output.read ("ok")] := by
  obtain ⟨a, b, c, d, e, f⟩ := c6_ok_consumed_by_reply_mask exReplyMask ("ok") (by decide)
  refine ⟨a, b, ?_⟩
  rw [f]
  decide

/-- Counterexample for C7: an alarm event does not reset the Feeder; a line
queued in the Feeder is still queued after the event. -/
theorem c7_counterexample :
    exAlarm.feeder.queue = [("G0 X0")] ∧
    (onAlarm exAlarm ("ALARM_LOCK")).1.feeder.queue = [("G0 X0")] ∧
    (onAlarm exAlarm ("ALARM_LOCK")).1.feeder.queue ≠ [] := by
  refine ⟨rfl, rfl, ?_⟩
  decide

/-- C7 (amended): an alarm event only surfaces the raw line and leaves the
state (the Feeder included) unchanged; while the controller reports alarm, a
Feeder data emission writes nothing, the Feeder service loop writes nothing,
and an emission on an open connection resets the Feeder. -/
theorem c7_amended_alarm_handling (s : CtrlState) (raw line : String) :
    onAlarm s raw = (s, [Output.read raw]) ∧
    (machineIsAlarm s.controller = true →
      (feederData s line).2 = [] ∧
      (feederNext s).2 = [] ∧
      (s.isOpen = true →
        (feederData s line).1.feeder
          = { queue := [], hold := false, pending := false })) := by
  constructor
  · rfl
  · intro ha
    refine ⟨feederData_snd_of_alarm s line ha, feederNext_snd_of_alarm s ha, ?_⟩
    intro hopen
    unfold feederData feederReset
    dsimp only
    split_ifs <;> simp_all

/-- Witness for C7 at a concrete alarmed controller with a queued line. -/
theorem c7_witness :
    (feederData exAlarm ("G0 X0")).1.feeder
      = { queue := [], hold := false, pending := false } ∧
    (feederNext exAlarm).2 = [] := by
  have h := c7_amended_alarm_handling exAlarm ("ALARM") ("G0 X0")
  exact ⟨(h.2 (by decide)).2.2 (by decide), (h.2 (by decide)).2.1⟩

/-- Counterexample for C1: on a ready, open controller with a running
workflow and both parser-state masks clear, the tick writes the parser-state
query even though the workflow is not idle. -/
theorem c1_counterexample :
    exQueryRun.workflow = WorkflowState.running ∧
    (tick exQueryRun 1000).2 = [Output.write ("$G\n")] := by
  constructor
  · rfl
  · decide

/-- C1 (amended): the parser-state query is throttled to at most one body
invocation per 500 ms, a pending query (either queryParserState mask set)
suppresses the write, and the only output the throttled query can produce is
the single parser-state command; the workflow-idle and machine-idle condition
gates only the 10-second mask auto-clear, not the write itself. -/
theorem c1_amended_parser_state_query (s : CtrlState) (now : Int) :
    (s.qpsThrottleLast ≠ 0 → (now - s.qpsThrottleLast).natAbs < 500 →
      queryParserStateThrottled s now = (s, [])) ∧
    ((s.mask.queryParserState.state = true ∨ s.mask.queryParserState.reply = true) →
      s.workflow ≠ WorkflowState.idle →
      (queryParserStateThrottled s now).2 = []) ∧
    (∀ o, o ∈ (queryParserStateThrottled s now).2 → o = Output.write ("$G\n")) := by
  refine ⟨?_, ?_, ?_⟩
  · intro h1 h2
    unfold queryParserStateThrottled
    rw [if_neg]
    rintro (h | h)
    · exact h1 h
    · omega
  · intro hm hw
    unfold queryParserStateThrottled queryParserStateBody
    dsimp only
    split_ifs <;> simp_all
  · intro o ho
    unfold queryParserStateThrottled queryParserStateBody at ho
    dsimp only at ho
    split_ifs at ho <;> simp_all

/-- Witness for C1: a call 100 ms after the last throttle invocation does
nothing. -/
theorem c1_witness : queryParserStateThrottled exThrottle 700 = (exThrottle, []) :=
  (c1_amended_parser_state_query exThrottle 700).1 (by decide) (by decide)

lemma wfPause_running (s : CtrlState) (r : Option PauseReason)
    (h : s.workflow = WorkflowState.running) :
    (wfPause s r).workflow = WorkflowState.paused ∧
    (wfPause s r).pauseReason = r ∧
    (wfPause s r).sender.hold = true := by
  unfold wfPause
  rw [if_pos h]
  exact ⟨rfl, rfl, rfl⟩

/-- C2: an ok event with the parser-state reply mask clear drives the ack
protocol: while running, a Sender that was holding with received + 1 at or
above sent ends up unheld (when the next program line carries no pause
trigger), and an outstanding line is acknowledged (received increments by
one); while paused the same acknowledgement happens as long as received is
below sent, and once received equals sent an ok leaves the Sender
unchanged. -/
theorem c2_ok_ack_protocol (s : CtrlState) (raw : String)
    (hmask : s.mask.queryParserState.reply = false) :
    (s.workflow = WorkflowState.running → s.sender.received < s.sender.sent →
      (onOk s raw).1.sender.received = s.sender.received + 1) ∧
    (s.workflow = WorkflowState.running → s.sender.hold = true →
      s.sender.sent ≤ s.sender.received + 1 →
      pauseTrigger (s.sender.lines.getD s.sender.sent ("")) = false →
      (onOk s raw).1.sender.hold = false) ∧
    (s.workflow = WorkflowState.paused → s.sender.received < s.sender.sent →
      (onOk s raw).1.sender.received = s.sender.received + 1) ∧
    (s.workflow = WorkflowState.paused → s.sender.sent ≤ s.sender.received →
      (onOk s raw).1.sender = s.sender) := by
  refine ⟨?_, ?_, ?_, ?_⟩
  · intro hw hlt
    unfold onOk
    simp only [hmask, Bool.false_eq_true, if_false]
    rw [if_pos hw, (senderNext_frame _).1]
    split_ifs
    · exact senderAck_received (senderUnhold s) hlt
    · exact senderAck_received s hlt
  · intro hw hh hge ht
    unfold onOk
    simp only [hmask, Bool.false_eq_true, if_false]
    rw [if_pos hw, if_pos ⟨hh, hge⟩]
    refine senderNext_hold_of_no_trigger _ ?_ ?_
    · rw [(senderAck_frame _).2.1]
      rfl
    · rw [(senderAck_frame _).2.2.1, (senderAck_frame _).1]
      exact ht
  · intro hw hlt
    unfold onOk
    simp only [hmask, Bool.false_eq_true, if_false]
    rw [if_neg (by rw [hw]; intro h; cases h), if_pos ⟨hw, hlt⟩,
        (senderNext_frame _).1]
    exact senderAck_received s hlt
  · intro hw hge
    unfold onOk
    simp only [hmask, Bool.false_eq_true, if_false]
    rw [if_neg (by rw [hw]; intro h; cases h), if_neg (by rintro ⟨h1, h2⟩; omega)]
    exact (feederNext_frame s).1

/-- Witness for C2 at the four concrete streaming configurations. -/
theorem c2_witness :
    (onOk exRunning ("ok")).1.sender.received = 1 ∧
    (onOk exHold ("ok")).1.sender.hold = false ∧
    (onOk exPausedCatch ("ok")).1.sender.received = 2 ∧
    (onOk exPausedDone ("ok")).1.sender = exPausedDone.sender := by
  refine ⟨?_, ?_, ?_, ?_⟩
  · exact (c2_ok_ack_protocol exRunning ("ok") (by decide)).1 rfl (by decide)
  · exact (c2_ok_ack_protocol exHold ("ok") (by decide)).2.1 rfl (by decide) (by decide) (by decide)
  · exact (c2_ok_ack_protocol exPausedCatch ("ok") (by decide)).2.2.1 rfl (by decide)
  · exact (c2_ok_ack_protocol exPausedDone ("ok") (by decide)).2.2.2 rfl (by decide)

lemma cmdGcode_controller (s : CtrlState) (commands : List String) :
    (cmdGcode s commands).1.controller = s.controller := by
  unfold cmdGcode
  split_ifs
  · exact (feederNext_frame _).2.2.2.1
  · rfl

lemma cmdGcode_of_pending (s : CtrlState) (commands : List String)
    (hp : s.feeder.pending = true) :
    cmdGcode s commands
      = ({ s with feeder := { s.feeder with
            queue := s.feeder.queue ++ gcodeLines commands } }, []) := by
  unfold cmdGcode
  rw [if_neg (by simp [hp])]

/-- Counterexample for C3: with the cached override at 195, a +10 override
sends M220S200 (with no space) but the snapshot field ovF that the next
invocation reads stays 195 instead of being updated to 200. -/
theorem c3_counterexample :
    exOverride.controller.ovF = 195 ∧
    (cmdOverrideFeed exOverride 10).1.feeder.queue = [("M220S200")] ∧
    (cmdOverrideFeed exOverride 10).1.controller.ovF = 195 ∧
    ¬ (cmdOverrideFeed exOverride 10).1.controller.ovF = 200 := by
  refine ⟨rfl, ?_, ?_, ?_⟩ <;> decide

/-- C3 (amended): the override commands compute the new value by clamping
(delta zero resets to 100, otherwise current plus delta clamped to 10..200)
from the snapshot field ovF (resp. ovS), enqueue M220S (resp. M221S)
followed by the value via the gcode path, and write the new value only into
state.status.ovF (resp. state.status.ovS), leaving the snapshot field the
next invocation reads unchanged. -/
theorem c3_amended_override (s : CtrlState) (v : Int) :
    (cmdOverrideFeed s v).1.controller.status_ovF = clampOverride s.controller.ovF v ∧
    (cmdOverrideFeed s v).1.controller.ovF = s.controller.ovF ∧
    (s.feeder.pending = true →
      (cmdOverrideFeed s v).1.feeder.queue
        = s.feeder.queue ++ gcodeLines [("M220S") ++ toString (clampOverride s.controller.ovF v)] ∧
      (cmdOverrideFeed s v).2 = []) ∧
    (cmdOverrideSpindle s v).1.controller.status_ovS = clampOverride s.controller.ovS v ∧
    (cmdOverrideSpindle s v).1.controller.ovS = s.controller.ovS ∧
    (s.feeder.pending = true →
      (cmdOverrideSpindle s v).1.feeder.queue
        = s.feeder.queue ++ gcodeLines [("M221S") ++ toString (clampOverride s.controller.ovS v)] ∧
      (cmdOverrideSpindle s v).2 = []) := by
  refine ⟨rfl, ?_, ?_, rfl, ?_, ?_⟩
  · show (cmdGcode s _).1.controller.ovF = s.controller.ovF
    rw [cmdGcode_controller]
  · intro hp
    unfold cmdOverrideFeed
    rw [cmdGcode_of_pending s _ hp]
    exact ⟨rfl, rfl⟩
  · show (cmdGcode s _).1.controller.ovS = s.controller.ovS
    rw [cmdGcode_controller]
  · intro hp
    unfold cmdOverrideSpindle
    rw [cmdGcode_of_pending s _ hp]
    exact ⟨rfl, rfl⟩

/-- Witness for C3 at the concrete overrides: 195 + 10 clamps to 200 and is
cached in status only. -/
theorem c3_witness :
    (cmdOverrideFeed exOverride 10).1.controller.status_ovF = 200 ∧
    (cmdOverrideFeed exOverride 10).1.feeder.queue = [("M220S200")] ∧
    (cmdOverrideSpindle exOverride 0).1.feeder.queue = [("M221S100")] := by
  have h := c3_amended_override exOverride 10
  have h2 := c3_amended_override exOverride 0
  refine ⟨?_, ?_, ?_⟩
  · rw [h.1]; decide
  · rw [(h.2.2.1 (by decide)).1]; decide
  · rw [(h2.2.2.2.2.2 (by decide)).1]; decide

/-- C4: an error event while running surfaces the annotated echo of the
offending line (lines[received], with line number received + 1) followed by
the raw error; unless ignoreErrors is set, the workflow is paused with the
raw error as reason; the outstanding line is acknowledged.  When not running
the raw error is surfaced and the Sender is untouched (the Feeder is serviced
instead). -/
theorem c4_error_dispatch (s : CtrlState) (ig : Bool) (raw : String) :
    (s.workflow = WorkflowState.running →
      ((onError s ig raw).2.take 2
          = [Output.read ("> " ++ strTrim (s.sender.lines.getD s.sender.received (""))
              ++ " (line=" ++ toString (s.sender.received + 1) ++ ")"),
             Output.read raw]) ∧
      (ig = false →
        (onError s ig raw).1.workflow = WorkflowState.paused ∧
        (onError s ig raw).1.pauseReason = some (PauseReason.err raw) ∧
        (onError s ig raw).2
          = [Output.read ("> " ++ strTrim (s.sender.lines.getD s.sender.received (""))
              ++ " (line=" ++ toString (s.sender.received + 1) ++ ")"),
             Output.read raw]) ∧
      (s.sender.received < s.sender.sent →
        (onError s ig raw).1.sender.received = s.sender.received + 1)) ∧
    (s.workflow ≠ WorkflowState.running →
      (onError s ig raw).2.take 1 = [Output.read raw] ∧
      (onError s ig raw).1.sender = s.sender) := by
  constructor
  · intro hw
    refine ⟨?_, ?_, ?_⟩
    · unfold onError
      rw [if_pos hw]
      rfl
    · intro hig
      unfold onError
      rw [if_pos hw]
      dsimp only
      rw [if_pos hig]
      have hp := wfPause_running s (some (PauseReason.err raw)) hw
      have hhold : (senderAck (wfPause s (some (PauseReason.err raw)))).sender.hold = true := by
        rw [(senderAck_frame _).2.1]
        exact hp.2.2
      rw [senderNext_of_hold _ hhold]
      refine ⟨?_, ?_, rfl⟩
      · rw [(senderAck_frame _).2.2.2.2.1]
        exact hp.1
      · rw [(senderAck_frame _).2.2.2.2.2.1]
        exact hp.2.1
    · intro hlt
      unfold onError
      rw [if_pos hw]
      dsimp only
      split_ifs with hig
      · have ha := senderAck_received (wfPause s (some (PauseReason.err raw)))
          (by rw [(wfPause_frame _ _).1, (wfPause_frame _ _).2.1]; exact hlt)
        rw [(senderNext_frame _).1, ha, (wfPause_frame _ _).1]
      · rw [(senderNext_frame _).1]
        exact senderAck_received s hlt
  · intro hw
    unfold onError
    rw [if_neg hw]
    exact ⟨rfl, (feederNext_frame s).1⟩

/-- Witness for C4: a concrete error while streaming pauses and advances the
Sender; a concrete error while idle leaves the Sender alone. -/
theorem c4_witness :
    (onError exRunning false ("error:X")).1.workflow = WorkflowState.paused ∧
    (onError exRunning false ("error:X")).1.pauseReason
      = some (PauseReason.err ("error:X")) ∧
    (onError exRunning false ("error:X")).2
      = [Output.read ("> G1 X1 (line=1)"), Output.read ("error:X")] ∧
    (onError exRunning false ("error:X")).1.sender.received = 1 ∧
    (onError baseState false ("err")).1.sender = baseState.sender := by
  have h := c4_error_dispatch exRunning false ("error:X")
  have h2 := c4_error_dispatch baseState false ("err")
  obtain ⟨hp1, hp2, hp3⟩ := (h.1 rfl).2.1 rfl
  refine ⟨hp1, hp2, ?_, (h.1 rfl).2.2 (by decide), (h2.2 (by decide)).2⟩
  rw [hp3]
  decide

lemma cmdOverrideFeed_sender (s : CtrlState) (v : Int) :
    (cmdOverrideFeed s v).1.sender = s.sender := by
  unfold cmdOverrideFeed
  exact cmdGcode_sender s _

lemma cmdOverrideSpindle_sender (s : CtrlState) (v : Int) :
    (cmdOverrideSpindle s v).1.sender = s.sender := by
  unfold cmdOverrideSpindle
  exact cmdGcode_sender s _

lemma onStatus_bufferSize_change (s : CtrlState) (raw : String) (R : Int)
    (h : (onStatus s raw R).1.sender.sp.bufferSize ≠ s.sender.sp.bufferSize) :
    R > 0 ∧ s.workflow = WorkflowState.idle ∧ s.sender.sp.dataLength = 0 ∧
    (onStatus s raw R).1.sender.sp.bufferSize = R - 8 ∧
    s.sender.sp.bufferSize < R - 8 := by
  revert h
  unfold onStatus
  dsimp only
  split_ifs <;> intro h <;> simp_all

lemma step_bufferSize_mono (s : CtrlState) (ev : Event) :
    s.sender.sp.bufferSize ≤ (step s ev).1.sender.sp.bufferSize := by
  cases ev with
  | status raw bufRx => exact onStatus_bufferSize_mono s raw bufRx
  | ok raw => exact le_of_eq (onOk_bufferSize s raw).symm
  | err ig raw => exact le_of_eq (onError_bufferSize s ig raw).symm
  | alarm raw => exact le_refl _
  | parserstate raw =>
    exact le_of_eq (congrArg (fun sd => sd.sp.bufferSize) (onParserState_frame s raw).1).symm
  | tick now => exact le_of_eq (tick_bufferSize s now).symm
  | gcode commands =>
    exact le_of_eq (congrArg (fun sd => sd.sp.bufferSize) (cmdGcode_sender s commands)).symm
  | overrideFeed v =>
    exact le_of_eq (congrArg (fun sd => sd.sp.bufferSize) (cmdOverrideFeed_sender s v)).symm
  | overrideSpindle v =>
    exact le_of_eq (congrArg (fun sd => sd.sp.bufferSize) (cmdOverrideSpindle_sender s v)).symm
  | senderStop => exact le_of_eq (cmdSenderStop_frame s).1.symm

lemma runEvents_bufferSize_mono (s : CtrlState) (evs : List Event) :
    s.sender.sp.bufferSize ≤ (runEvents s evs).sender.sp.bufferSize := by
  induction evs generalizing s with
  | nil => exact le_refl _
  | cons e t ih =>
    calc s.sender.sp.bufferSize ≤ (step s e).1.sender.sp.bufferSize :=
          step_bufferSize_mono s e
      _ ≤ (runEvents (step s e).1 t).sender.sp.bufferSize := ih _
      _ = (runEvents s (e :: t)).sender.sp.bufferSize := rfl

/-- C5: a status event carrying a positive receive-buffer size, while the
workflow is idle and the in-flight queue is empty, raises bufferSize to the
maximum of its current value and the reported size minus 8; any other change
to bufferSize is impossible (a step changes it only under exactly those
conditions, to R - 8 and only upward), so bufferSize never decreases over any
sequence of events. -/
theorem c5_buffer_size_monotonic (s : CtrlState) (raw : String) (R : Int)
    (ev : Event) (evs : List Event) :
    (R > 0 → s.workflow = WorkflowState.idle → s.sender.sp.dataLength = 0 →
      (onStatus s raw R).1.sender.sp.bufferSize
        = max s.sender.sp.bufferSize (R - 8)) ∧
    (∀ ev2, (step s ev2).1.sender.sp.bufferSize ≠ s.sender.sp.bufferSize →
      ∃ raw2 R2, ev2 = Event.status raw2 R2 ∧ R2 > 0 ∧
        s.workflow = WorkflowState.idle ∧ s.sender.sp.dataLength = 0 ∧
        (step s ev2).1.sender.sp.bufferSize = R2 - 8 ∧
        s.sender.sp.bufferSize < R2 - 8) ∧
    s.sender.sp.bufferSize ≤ (step s ev).1.sender.sp.bufferSize ∧
    s.sender.sp.bufferSize ≤ (runEvents s evs).sender.sp.bufferSize := by
  refine ⟨fun h1 h2 h3 => onStatus_bufferSize_update s raw R h1 h2 h3, ?_,
    step_bufferSize_mono s ev, runEvents_bufferSize_mono s evs⟩
  intro ev2 hne
  cases ev2 with
  | status raw2 R2 =>
    obtain ⟨a, b, c, d, e⟩ := onStatus_bufferSize_change s raw2 R2 hne
    exact ⟨raw2, R2, rfl, a, b, c, d, e⟩
  | ok raw2 => exact absurd (onOk_bufferSize s raw2) hne
  | err ig raw2 => exact absurd (onError_bufferSize s ig raw2) hne
  | alarm raw2 => exact absurd rfl hne
  | parserstate raw2 =>
    exact absurd (congrArg (fun sd => sd.sp.bufferSize) (onParserState_frame s raw2).1) hne
  | tick now => exact absurd (tick_bufferSize s now) hne
  | gcode commands =>
    exact absurd (congrArg (fun sd => sd.sp.bufferSize) (cmdGcode_sender s commands)) hne
  | overrideFeed v =>
    exact absurd (congrArg (fun sd => sd.sp.bufferSize) (cmdOverrideFeed_sender s v)) hne
  | overrideSpindle v =>
    exact absurd (congrArg (fun sd => sd.sp.bufferSize) (cmdOverrideSpindle_sender s v)) hne
  | senderStop => exact absurd (cmdSenderStop_frame s).1 hne

/-- Witness for C5: a 200-byte report tunes bufferSize to 192, and a later
100-byte report leaves it at 192. -/
theorem c5_witness :
    (onStatus baseState ("<Idle>") 200).1.sender.sp.bufferSize = 192 ∧
    (onStatus (onStatus baseState ("<Idle>") 200).1 ("<Idle>") 100).1.sender.sp.bufferSize
      = 192 := by
  have h1 := (c5_buffer_size_monotonic baseState ("<Idle>") 200 (Event.alarm ("x")) []).1
    (by decide) rfl rfl
  have h2 := (c5_buffer_size_monotonic (onStatus baseState ("<Idle>") 200).1 ("<Idle>") 100
    (Event.alarm ("x")) []).1 (by decide) (by decide) (by decide)
  constructor
  · rw [h1]; decide
  · rw [h2, h1]; decide

lemma tickFinish_not_idle (s : CtrlState) (now : Int) (zo : Bool)
    (hft : s.time.senderFinishTime > 0)
    (h : ¬ (zo = true ∧ machineIsIdle s.controller = true)) :
    (tickFinish s now zo).1.time.senderFinishTime = now := by
  unfold tickFinish
  dsimp only
  rw [if_pos hft, if_pos h]

lemma tickFinish_stop (s : CtrlState) (now : Int) (zo : Bool)
    (hft : s.time.senderFinishTime > 0) (hzo : zo = true)
    (hmi : machineIsIdle s.controller = true)
    (ht : (now - s.time.senderFinishTime).natAbs > 500) :
    (tickFinish s now zo).1.time.senderFinishTime = 0 ∧
    (tickFinish s now zo).1.workflow = WorkflowState.idle := by
  unfold tickFinish
  dsimp only
  rw [if_pos hft, if_neg (by simp [hzo, hmi]), if_pos ht]
  constructor
  · rw [show (cmdSenderStop { s with time := { s.time with senderFinishTime := 0 } }).1.time
        = { s.time with senderFinishTime := 0 } from (cmdSenderStop_frame _).2]
  · exact cmdSenderStop_workflow _

/-- C8: on a tick of a ready, open controller with a positive
senderFinishTime, if the machine is not idle or its work position differs
from the pre-tick cached work position, senderFinishTime slides forward to
the tick time; if the machine is idle with matching positions and more than
500 ms have elapsed, senderFinishTime is cleared and the internal sender:stop
leaves the workflow idle. -/
theorem c8_end_of_program_detection (s : CtrlState) (now : Int)
    (hopen : s.isOpen = true) (hready : s.ready = true)
    (hft : s.time.senderFinishTime > 0) :
    ((¬ (s.cachedState.wpos = s.controller.wpos ∧ machineIsIdle s.controller = true)) →
      (tick s now).1.time.senderFinishTime = now) ∧
    (s.cachedState.wpos = s.controller.wpos → machineIsIdle s.controller = true →
      (now - s.time.senderFinishTime).natAbs > 500 →
      (tick s now).1.time.senderFinishTime = 0 ∧
      (tick s now).1.workflow = WorkflowState.idle) := by
  have hqs := queryStatusReportFn_frame { s with cachedState := s.controller } now
  have hqp := queryParserStateThrottled_frame
    (queryStatusReportFn { s with cachedState := s.controller } now).1 now
  have hB : (queryParserStateThrottled
      (queryStatusReportFn { s with cachedState := s.controller } now).1 now).1.time.senderFinishTime
      = s.time.senderFinishTime := by
    rw [hqp.2.2.2.2.2.1, hqs.2.2.2.2.2.1]
  have hBc : (queryParserStateThrottled
      (queryStatusReportFn { s with cachedState := s.controller } now).1 now).1.controller
      = s.controller := by
    rw [hqp.2.2.1, hqs.2.2.1]
  constructor
  · intro hni
    unfold tick
    dsimp only
    rw [if_neg (by rw [hopen]; intro h; cases h), if_neg (by rw [hready]; intro h; cases h)]
    dsimp only
    rw [tickFinish_not_idle _ now _ (by rw [hB]; exact hft)]
    rw [hBc]
    intro hcon
    refine hni ⟨?_, hcon.2⟩
    have := hcon.1
    simpa using this
  · intro hzo hmi ht
    unfold tick
    dsimp only
    rw [if_neg (by rw [hopen]; intro h; cases h), if_neg (by rw [hready]; intro h; cases h)]
    dsimp only
    refine tickFinish_stop _ now _ (by rw [hB]; exact hft) (by simp [hzo]) ?_ ?_
    · rw [hBc]
      exact hmi
    · rw [hB]
      exact ht

/-- Witness for C8: an idle machine at matching positions stops the workflow
after the tolerance window; a mismatched position slides the finish time. -/
theorem c8_witness :
    (tick exFinish 1000).1.time.senderFinishTime = 0 ∧
    (tick exFinish 1000).1.workflow = WorkflowState.idle ∧
    (tick exFinishBusy 1000).1.time.senderFinishTime = 1000 := by
  have h1 := (c8_end_of_program_detection exFinish 1000 (by decide) (by decide)
    (by decide)).2 rfl (by decide) (by decide)
  have h2 := (c8_end_of_program_detection exFinishBusy 1000 (by decide) (by decide)
    (by decide)).1 (by decide)
  exact ⟨h1.1, h1.2, h2⟩

end SmoothieCtl
